import Mathlib

/-!
# VESC Tool settings page: gamepad control

A shallow embedding of `src/pages/pagesettings.cpp` (build with `HAS_GAMEPAD`):
the arming setter `PageSettings::setUseGamepadControl`, the getter
`PageSettings::isUsingGamepadControl` and the 10 Hz tick `PageSettings::timerSlot`.

Conventions of the embedding.
* C++ `double` values are exact rationals (`ℚ`); `fabs` is the absolute value.
* A pointer is an `Option`: `none` is the null pointer.
* The controller (`VescInterface`) is an external object; its model records the
  calls it has received, oldest first.
* An output widget records the argument of the last setter call made on it.
* A function that can dereference a null pointer returns `Option`; `none`
  stands for that dereference.
-/

namespace VescTool

/-! ## Data model -/

/-- One call on `mVesc->commands()`, with the value passed. -/
inductive Command where
  | setCurrent (current : ℚ)
  | setCurrentBrake (current : ℚ)
  | setDutyCycle (dutyCycle : ℚ)
  | setRpm (rpm : ℚ)
  | setPos (pos : ℚ)
  deriving DecidableEq

/-- One call of `VescInterface::emitMessageDialog(title, msg, isGood, richText)`. -/
structure MessageDialog where
  title : String
  msg : String
  isGood : Bool
  richText : Bool
  deriving DecidableEq

/-- The controller object behind the `mVesc` pointer: the calls it has received. -/
structure VescInterface where
  commands : List Command
  dialogs : List MessageDialog
  deriving DecidableEq

/-- The device object behind the `mGamepad` pointer: what its getters return. -/
structure QGamepad where
  axisLeftX : ℚ
  axisLeftY : ℚ
  axisRightX : ℚ
  axisRightY : ℚ
  isConnected : Bool
  deriving DecidableEq

/-- The display widget `ui->jsDisp`: the last argument of each of its setters. -/
structure DisplayBar where
  range : ℚ
  unit : String
  name : String
  val : ℚ
  decimals : Int
  deriving DecidableEq

/-- The widgets of the page that the gamepad code reads or writes. Input widgets hold
what `isChecked()`, `currentIndex()` and `value()` return; the four bars and the
display are output widgets. -/
structure Ui where
  jsConfigOkBox : Bool
  jsInvertedBox : Bool
  jsBidirectionalBox : Bool
  jseAxisBox : Int
  jsControlTypeBox : Int
  jsMinBox : ℚ
  jsMaxBox : ℚ
  jsCurrentMinBox : ℚ
  jsCurrentMaxBox : ℚ
  jsErpmMinBox : ℚ
  jsErpmMaxBox : ℚ
  jsAxis1Bar : ℚ
  jsAxis2Bar : ℚ
  jsAxis3Bar : ℚ
  jsAxis4Bar : ℚ
  jsDisp : DisplayBar
  deriving DecidableEq

/-- The members of `PageSettings` used by the gamepad code. -/
structure PageSettings where
  ui : Ui
  mVesc : Option VescInterface
  mGamepad : Option QGamepad
  mUseGamepadControl : Bool
  deriving DecidableEq

/-! ## Operations -/

/-- Modelled from the spec: `Utility::map` is declared in `utility.h`, which is not among
the sources. The spec (4.1, step 3) gives the affine transform
`map(x, a, b, c, d) = c + (x - a) * (d - c) / (b - a)`. -/
def Utility.map (x in_min in_max out_min out_max : ℚ) : ℚ :=
  out_min + (x - in_min) * (out_max - out_min) / (in_max - in_min)

/-- The controller after one more call on `commands()`. -/
def VescInterface.send (v : VescInterface) (c : Command) : VescInterface :=
  { v with commands := v.commands ++ [c] }

/-- The controller after `emitMessageDialog(title, msg, isGood, richText)`. -/
def VescInterface.emitMessageDialog (v : VescInterface) (title msg : String)
    (isGood richText : Bool) : VescInterface :=
  { v with dialogs := v.dialogs ++ [⟨title, msg, isGood, richText⟩] }

/-- The guarded call `if (mVesc && mUseGamepadControl) { mVesc->commands()->c; }` of
`timerSlot`: the controller pointer afterwards. -/
def PageSettings.whenArmed (s : PageSettings) (c : Command) : Option VescInterface :=
  match s.mVesc with
  | some v => if s.mUseGamepadControl then some (v.send c) else some v
  | none => none

/-- The locals `input`, `range`, `decimals`, `name`, `unit` of `timerSlot`. -/
structure TickLocals where
  input : ℚ
  range : ℚ
  decimals : Int
  name : String
  unit : String
  deriving DecidableEq

/-- Lines 196-209 of `timerSlot`: the local `ax` once the axis is selected and the
inversion applied. -/
def tickAx (ui : Ui) (gp : QGamepad) : ℚ :=
  let ax : ℚ :=
    if ui.jseAxisBox = 0 then gp.axisLeftX * 1000
    else if ui.jseAxisBox = 1 then gp.axisLeftY * 1000
    else if ui.jseAxisBox = 2 then gp.axisRightX * 1000
    else if ui.jseAxisBox = 3 then gp.axisRightY * 1000
    else 0
  if ui.jsInvertedBox then -ax else ax

/-- Lines 211-213 of `timerSlot`: the local `input` as initialised by `Utility::map`. -/
def tickInput (ui : Ui) (gp : QGamepad) : ℚ :=
  Utility.map (tickAx ui gp) ui.jsMinBox ui.jsMaxBox
    (if ui.jsBidirectionalBox then -1 else 0) 1

/-- `PageSettings::timerSlot` (lines 187-275). -/
def PageSettings.timerSlot (s : PageSettings) : PageSettings :=
  match s.mGamepad with
  | none => s
  | some gp =>
    let input : ℚ := tickInput s.ui gp
    let ctrlt : Int := s.ui.jsControlTypeBox
    let r : TickLocals × Option VescInterface :=
      if ctrlt = 0 ∨ ctrlt = 1 then
        let range : ℚ := if input ≥ 0 then |s.ui.jsCurrentMaxBox| else |s.ui.jsCurrentMinBox|
        let input : ℚ := input * range
        (⟨input, range, 2, "Current", " A"⟩,
          if ctrlt = 0 ∨ input > 0 then s.whenArmed (.setCurrent input)
          else s.whenArmed (.setCurrentBrake input))
      else if ctrlt = 2 then
        let range : ℚ := 1
        let input : ℚ := input * range
        (⟨input, range, 2, "Duty", ""⟩, s.whenArmed (.setDutyCycle input))
      else if ctrlt = 3 then
        let range : ℚ := if input ≥ 0 then |s.ui.jsErpmMaxBox| else |s.ui.jsErpmMinBox|
        let input : ℚ := input * range
        (⟨input, range, 0, "Speed", " ERPM"⟩, s.whenArmed (.setRpm input))
      else if ctrlt = 4 then
        let range : ℚ := 360
        let input : ℚ := input * range
        (⟨input, range, 1, "Position", " Degrees"⟩, s.whenArmed (.setPos input))
      else
        (⟨input, 0, 2, "Undefined", ""⟩, s.mVesc)
    { ui := { s.ui with
                jsAxis1Bar := gp.axisLeftX * 1000
                jsAxis2Bar := gp.axisLeftY * 1000
                jsAxis3Bar := gp.axisRightX * 1000
                jsAxis4Bar := gp.axisRightY * 1000
                jsDisp := ⟨r.1.range, r.1.unit, r.1.name, r.1.input, r.1.decimals⟩ }
      mVesc := r.2
      mGamepad := if gp.isConnected then some gp else none
      mUseGamepadControl := s.mUseGamepadControl }

/-- `PageSettings::setUseGamepadControl` (lines 157-176). The result is `none` when the
call dereferences a null `mVesc`. -/
def PageSettings.setUseGamepadControl (s : PageSettings) (useControl : Bool) :
    Option PageSettings :=
  if s.ui.jsConfigOkBox then
    match s.mGamepad with
    | some _ => some { s with mUseGamepadControl := useControl }
    | none =>
      match s.mVesc with
      | some v => some { s with mVesc := some (v.emitMessageDialog "Gamepad Control"
          "No recognized gamepad is connected." false false) }
      | none => none
  else
    match s.mVesc with
    | some v => some { s with mVesc := some (v.emitMessageDialog "Gamepad Control"
        "Gamepad control is not configured. Go to Settings->Gamepad to configure it."
        false false) }
    | none => some s

/-- `PageSettings::isUsingGamepadControl` (lines 178-185). -/
def PageSettings.isUsingGamepadControl (s : PageSettings) : Bool :=
  s.mUseGamepadControl

/-- `PageSettings::setVesc` (lines 149-155); the `loadQmlUiConnectBox` widget is not
part of the model. -/
def PageSettings.setVesc (s : PageSettings) (vesc : Option VescInterface) : PageSettings :=
  { s with mVesc := vesc }

/-- `PageSettings::on_jsConnectButton_clicked` (lines 299-310). `item` is the device that
`new QGamepad(item.toInt(), this)` binds for the selected list entry, `none` when
`item.isValid()` is false. -/
def PageSettings.on_jsConnectButton_clicked (s : PageSettings) (item : Option QGamepad) :
    PageSettings :=
  match item with
  | some g => { s with mGamepad := some g }
  | none => s

/-- The members as the constructor (lines 26-120) leaves them: no controller, disarmed,
the widgets as loaded from the settings, and a device only when the saved name matched
a connected one. -/
def PageSettings.init (ui : Ui) (saved : Option QGamepad) : PageSettings :=
  { ui := ui, mVesc := none, mGamepad := saved, mUseGamepadControl := false }

/-! ## Events of a session -/

/-- The widgets `u` with the output widgets (four bars, display) replaced. -/
def Ui.withOutputs (u : Ui) (b1 b2 b3 b4 : ℚ) (d : DisplayBar) : Ui :=
  { u with jsAxis1Bar := b1, jsAxis2Bar := b2, jsAxis3Bar := b3, jsAxis4Bar := b4,
           jsDisp := d }

/-- What can happen to the page between its construction and its destruction: the slots
and setters of the source, an edit of the input widgets by the operator, and a change of
what the attached device reports. -/
inductive Event where
  | timerSlot
  | setUseGamepadControl (useControl : Bool)
  | setVesc (vesc : Option VescInterface)
  | on_jsConnectButton_clicked (item : Option QGamepad)
  | operatorEdit (w : Ui)
  | deviceReport (gp : QGamepad)

/-- One event; `none` when the event dereferences a null pointer. An operator edit
replaces the input widgets and keeps the output widgets; a device report changes the
readings of the attached device and does nothing without one. -/
def PageSettings.step (s : PageSettings) : Event → Option PageSettings
  | .timerSlot => some s.timerSlot
  | .setUseGamepadControl useControl => s.setUseGamepadControl useControl
  | .setVesc vesc => some (s.setVesc vesc)
  | .on_jsConnectButton_clicked item => some (s.on_jsConnectButton_clicked item)
  | .operatorEdit w =>
    some { s with ui := w.withOutputs s.ui.jsAxis1Bar s.ui.jsAxis2Bar s.ui.jsAxis3Bar
                          s.ui.jsAxis4Bar s.ui.jsDisp }
  | .deviceReport gp =>
    match s.mGamepad with
    | some _ => some { s with mGamepad := some gp }
    | none => some s

/-- A sequence of events, stopping with `none` at a null dereference. -/
def PageSettings.run (s : PageSettings) : List Event → Option PageSettings
  | [] => some s
  | e :: es =>
    match s.step e with
    | some s1 => s1.run es
    | none => none

/-- Whether the event is an arming request that succeeds in state `s`: a call
`setUseGamepadControl(true)` with the calibration box checked and a device attached. -/
def Event.armsAt (s : PageSettings) : Event → Bool
  | .setUseGamepadControl true => s.ui.jsConfigOkBox && s.mGamepad.isSome
  | _ => false

/-- No arming request succeeds along the events run from `s`. -/
def PageSettings.noArming (s : PageSettings) : List Event → Bool
  | [] => true
  | e :: es =>
    !(e.armsAt s) &&
    match s.step e with
    | some s1 => s1.noArming es
    | none => true

/-- The value a command carries. -/
def Command.value : Command → ℚ
  | .setCurrent current => current
  | .setCurrentBrake current => current
  | .setDutyCycle dutyCycle => dutyCycle
  | .setRpm rpm => rpm
  | .setPos pos => pos

/-! ## Reference definitions, following the specification (4.1) -/

namespace Spec

/-- Step 3: `lo = -1` if `bidirectional`, else `0`. -/
def lo (bidirectional : Bool) : ℚ := if bidirectional then -1 else 0

/-- Step 1: the reading of the selected axis, 0..3. -/
def axisReading (gp : QGamepad) (selectedAxis : Int) : ℚ :=
  if selectedAxis = 0 then gp.axisLeftX
  else if selectedAxis = 1 then gp.axisLeftY
  else if selectedAxis = 2 then gp.axisRightX
  else gp.axisRightY

/-- Step 2: 1000 times the reading, negated when `inverted`. -/
def ax (reading : ℚ) (inverted : Bool) : ℚ :=
  if inverted then -(1000 * reading) else 1000 * reading

/-- Step 3: `input = lo + (ax - rawMin) * (1 - lo) / (rawMax - rawMin)`. -/
def input (ax rawMin rawMax lo : ℚ) : ℚ :=
  lo + (ax - rawMin) * (1 - lo) / (rawMax - rawMin)

/-- Step 4, column `range` of the table, by control-type index. -/
def range (m : Int) (input currentMin currentMax speedMin speedMax : ℚ) : ℚ :=
  if m = 0 ∨ m = 1 then (if input ≥ 0 then |currentMax| else |currentMin|)
  else if m = 2 then 1
  else if m = 3 then (if input ≥ 0 then |speedMax| else |speedMin|)
  else 360

/-- Step 5: what the display receives, by control-type index. -/
def display (m : Int) (range output : ℚ) : DisplayBar :=
  if m = 0 ∨ m = 1 then ⟨range, " A", "Current", output, 2⟩
  else if m = 2 then ⟨range, "", "Duty", output, 2⟩
  else if m = 3 then ⟨range, " ERPM", "Speed", output, 0⟩
  else ⟨range, " Degrees", "Position", output, 1⟩

/-- Steps 1-3 on the widgets `ui` and the device `gp`. -/
def tickInput (ui : Ui) (gp : QGamepad) : ℚ :=
  input (ax (axisReading gp ui.jseAxisBox) ui.jsInvertedBox) ui.jsMinBox ui.jsMaxBox
    (lo ui.jsBidirectionalBox)

/-- Step 4: the range selected on the widgets `ui` and the device `gp`. -/
def tickRange (ui : Ui) (gp : QGamepad) : ℚ :=
  range ui.jsControlTypeBox (tickInput ui gp) ui.jsCurrentMinBox ui.jsCurrentMaxBox
    ui.jsErpmMinBox ui.jsErpmMaxBox

/-- Step 4: `output = input * range`. -/
def tickOutput (ui : Ui) (gp : QGamepad) : ℚ :=
  tickInput ui gp * tickRange ui gp

end Spec

/-! ## Scenario states -/

/-- The calibration of scenario 1 of the spec (8): axis 0, not inverted, unidirectional,
raw range -1000..1000, CURRENT (index 0), current limits -20 and 30. The speed limits
are those of scenario 3. -/
def scenarioUi : Ui :=
  { jsConfigOkBox := true, jsInvertedBox := false, jsBidirectionalBox := false
    jseAxisBox := 0, jsControlTypeBox := 0
    jsMinBox := -1000, jsMaxBox := 1000
    jsCurrentMinBox := -20, jsCurrentMaxBox := 30
    jsErpmMinBox := -5000, jsErpmMaxBox := 20000
    jsAxis1Bar := 0, jsAxis2Bar := 0, jsAxis3Bar := 0, jsAxis4Bar := 0
    jsDisp := ⟨0, "", "", 0, 0⟩ }

/-- A device whose first axis reads `x`, the others 0. -/
def padReading (x : ℚ) (connected : Bool) : QGamepad :=
  { axisLeftX := x, axisLeftY := 0, axisRightX := 0, axisRightY := 0
    isConnected := connected }

/-- A controller that has received no call yet. -/
def freshVesc : VescInterface := ⟨[], []⟩

/-- An armed page with a controller and a connected device whose first axis reads `x`. -/
def armedPage (u : Ui) (x : ℚ) : PageSettings :=
  { ui := u, mVesc := some freshVesc, mGamepad := some (padReading x true)
    mUseGamepadControl := true }

/-- The page of scenario 1 with a controller, disarmed, the first axis reading 1/2. -/
def disarmedPage : PageSettings :=
  { armedPage scenarioUi (1/2) with mUseGamepadControl := false }

/-- Scenario 1 (forward current): unidirectional, CURRENT, first axis reading 0.5. -/
def scenario1Page : PageSettings := armedPage scenarioUi (1/2)

/-- Scenario 2 (brake current): scenario 1 with `bidirectional`, first axis reading -0.4. -/
def scenario2Page : PageSettings :=
  armedPage { scenarioUi with jsBidirectionalBox := true } (-2/5)

/-- Scenario 2 with the second control type (index 1) selected. -/
def scenario2Page1 : PageSettings :=
  armedPage { scenarioUi with jsBidirectionalBox := true, jsControlTypeBox := 1 } (-2/5)

/-- Scenario 3 (speed, asymmetric limits): SPEED (index 3), bidirectional, first axis
reading 0.8. -/
def scenario3Page : PageSettings :=
  armedPage { scenarioUi with jsBidirectionalBox := true, jsControlTypeBox := 3 } (4/5)

/-- Scenario 4 (inversion): scenario 1 with `inverted`, first axis reading 0.5. -/
def scenario4Page : PageSettings :=
  armedPage { scenarioUi with jsInvertedBox := true } (1/2)

/-- The page as constructed with the calibration box unchecked and no saved device: no
controller yet. -/
def unconfiguredNoVescPage : PageSettings :=
  PageSettings.init { scenarioUi with jsConfigOkBox := false } none

/-- The page as constructed with the calibration box checked and no saved device: no
controller yet. -/
def configuredNoDevicePage : PageSettings :=
  PageSettings.init scenarioUi none

/-- A disarmed page with a controller and a device, the calibration box unchecked. -/
def unconfiguredPage : PageSettings :=
  { ui := { scenarioUi with jsConfigOkBox := false }, mVesc := some freshVesc
    mGamepad := some (padReading (1/2) true), mUseGamepadControl := false }

/-- The dialog of the branch "not configured" of `setUseGamepadControl`. -/
def notConfiguredDialog : MessageDialog :=
  ⟨"Gamepad Control",
    "Gamepad control is not configured. Go to Settings->Gamepad to configure it.",
    false, false⟩

/-- The dialog of the branch "no gamepad" of `setUseGamepadControl`. -/
def noGamepadDialog : MessageDialog :=
  ⟨"Gamepad Control", "No recognized gamepad is connected.", false, false⟩

/-- The armed page of scenario 1 once the operator has unchecked the calibration box. -/
def armedUnconfiguredPage : PageSettings :=
  armedPage { scenarioUi with jsConfigOkBox := false } (1/2)

/-- The page `armedUnconfiguredPage` after the call `setUseGamepadControl(false)`. -/
def afterDisarmRequestPage : PageSettings :=
  { armedUnconfiguredPage with mVesc := some ⟨[], [notConfiguredDialog]⟩ }

/-- The armed page of scenario 1 with a control-type index outside 0..4 (here 5), as
`currentIndex()` of `jsControlTypeBox` is a plain `int`. -/
def undefinedModePage : PageSettings :=
  armedPage { scenarioUi with jsControlTypeBox := 5 } (1/2)

theorem timerSlot_of_none (s : PageSettings) (h : s.mGamepad = none) : s.timerSlot = s := by
  unfold PageSettings.timerSlot
  simp [h]

theorem whenArmed_disarmed (s : PageSettings) (c : Command)
    (h : s.mUseGamepadControl = false) : s.whenArmed c = s.mVesc := by
  unfold PageSettings.whenArmed
  cases hv : s.mVesc <;> simp [h]

theorem whenArmed_no_vesc (s : PageSettings) (c : Command)
    (h : s.mVesc = none) : s.whenArmed c = s.mVesc := by
  unfold PageSettings.whenArmed
  simp [h]

theorem whenArmed_armed (s : PageSettings) (c : Command) (v : VescInterface)
    (hv : s.mVesc = some v) (h : s.mUseGamepadControl = true) :
    s.whenArmed c = some (v.send c) := by
  unfold PageSettings.whenArmed
  simp [hv, h]

theorem timerSlot_mUseGamepadControl (s : PageSettings) :
    s.timerSlot.mUseGamepadControl = s.mUseGamepadControl := by
  unfold PageSettings.timerSlot
  cases s.mGamepad <;> rfl

theorem timerSlot_mVesc_disarmed (s : PageSettings) (h : s.mUseGamepadControl = false) :
    s.timerSlot.mVesc = s.mVesc := by
  unfold PageSettings.timerSlot
  cases s.mGamepad with
  | none => rfl
  | some gp =>
    simp only [whenArmed_disarmed s _ h]
    split_ifs <;> rfl

theorem timerSlot_mVesc_no_vesc (s : PageSettings) (h : s.mVesc = none) :
    s.timerSlot.mVesc = s.mVesc := by
  unfold PageSettings.timerSlot
  cases s.mGamepad with
  | none => rfl
  | some gp =>
    simp only [whenArmed_no_vesc s _ h]
    split_ifs <;> rfl

theorem timerSlot_ui_armed_irrelevant (s : PageSettings) (b : Bool) :
    ({ s with mUseGamepadControl := b }).timerSlot.ui = s.timerSlot.ui := by
  unfold PageSettings.timerSlot
  cases s.mGamepad with
  | none => rfl
  | some gp =>
    simp only
    split_ifs <;> rfl

theorem timerSlot_ui_overwrites (s : PageSettings) (gp : QGamepad) (hg : s.mGamepad = some gp)
    (b1 b2 b3 b4 : ℚ) (d : DisplayBar) :
    ({ s with ui := s.ui.withOutputs b1 b2 b3 b4 d }).timerSlot.ui = s.timerSlot.ui := by
  obtain ⟨ui, v, g, u⟩ := s
  cases hg
  rfl

/-! ## The arming gate -/

/-- C1: a tick invokes a controller operation only if a device is attached, the page is
armed and a controller is present. With a device attached and the page disarmed, the tick
leaves the controller untouched and writes the four bars (1000 times each reading) and the
display: their contents after the tick do not depend on their contents before, and are
those an armed tick writes. Without a device the tick changes nothing. -/
theorem timerSlot_arming_gate (s : PageSettings) :
    (s.timerSlot.mVesc ≠ s.mVesc →
      s.mGamepad.isSome = true ∧ s.mUseGamepadControl = true ∧ s.mVesc.isSome = true) ∧
    (∀ gp, s.mGamepad = some gp → s.mUseGamepadControl = false →
      s.timerSlot.mVesc = s.mVesc ∧
      s.timerSlot.ui.jsAxis1Bar = gp.axisLeftX * 1000 ∧
      s.timerSlot.ui.jsAxis2Bar = gp.axisLeftY * 1000 ∧
      s.timerSlot.ui.jsAxis3Bar = gp.axisRightX * 1000 ∧
      s.timerSlot.ui.jsAxis4Bar = gp.axisRightY * 1000 ∧
      (∀ b1 b2 b3 b4 d,
        ({ s with ui := s.ui.withOutputs b1 b2 b3 b4 d }).timerSlot.ui = s.timerSlot.ui) ∧
      s.timerSlot.ui = ({ s with mUseGamepadControl := true }).timerSlot.ui) ∧
    (s.mGamepad = none → s.timerSlot = s) := by
  refine ⟨?_, ?_, timerSlot_of_none s⟩
  · intro hne
    refine ⟨?_, ?_, ?_⟩
    · cases hg : s.mGamepad with
      | none => exact absurd (by rw [timerSlot_of_none s hg]) hne
      | some gp => rfl
    · cases hu : s.mUseGamepadControl with
      | false => exact absurd (timerSlot_mVesc_disarmed s hu) hne
      | true => rfl
    · cases hv : s.mVesc with
      | none => exact absurd (timerSlot_mVesc_no_vesc s hv) hne
      | some v => rfl
  · intro gp hg hu
    refine ⟨timerSlot_mVesc_disarmed s hu, ?_, ?_, ?_, ?_,
      fun b1 b2 b3 b4 d => timerSlot_ui_overwrites s gp hg b1 b2 b3 b4 d,
      (timerSlot_ui_armed_irrelevant s true).symm⟩ <;>
    · unfold PageSettings.timerSlot
      simp only [hg]

/-- C1 applied to the disarmed page of scenario 1. -/
theorem timerSlot_arming_gate_witness :
    disarmedPage.mGamepad = some (padReading (1/2) true) ∧
    disarmedPage.mUseGamepadControl = false ∧
    disarmedPage.timerSlot.mVesc = disarmedPage.mVesc ∧
    disarmedPage.timerSlot.ui.jsAxis1Bar = (padReading (1/2) true).axisLeftX * 1000 ∧
    disarmedPage.timerSlot.ui.jsAxis2Bar = (padReading (1/2) true).axisLeftY * 1000 ∧
    disarmedPage.timerSlot.ui.jsAxis3Bar = (padReading (1/2) true).axisRightX * 1000 ∧
    disarmedPage.timerSlot.ui.jsAxis4Bar = (padReading (1/2) true).axisRightY * 1000 ∧
    (∀ b1 b2 b3 b4 d,
      ({ disarmedPage with ui := disarmedPage.ui.withOutputs b1 b2 b3 b4 d }).timerSlot.ui
        = disarmedPage.timerSlot.ui) ∧
    disarmedPage.timerSlot.ui
      = ({ disarmedPage with mUseGamepadControl := true }).timerSlot.ui :=
  ⟨rfl, rfl, (timerSlot_arming_gate disarmedPage).2.1 (padReading (1/2) true) rfl rfl⟩

/-- The disarmed tick of scenario 1, evaluated, first axis reading 1/2: the
controller has received no call, the first bar shows 500 and the display shows the
current 45/2 of range 30. -/
theorem disarmed_scenario_tick :
    disarmedPage.timerSlot
      = { disarmedPage with
          ui := scenarioUi.withOutputs 500 0 0 0 ⟨30, " A", "Current", 45/2, 2⟩ } := by
  norm_num [PageSettings.timerSlot, disarmedPage, armedPage, scenarioUi, padReading, freshVesc,
    PageSettings.whenArmed, VescInterface.send, Utility.map, tickInput, tickAx,
    Ui.withOutputs]

/-! ## The value pipeline -/

theorem tickInput_eq_spec (ui : Ui) (gp : QGamepad)
    (ha : 0 ≤ ui.jseAxisBox ∧ ui.jseAxisBox ≤ 3) :
    tickInput ui gp = Spec.tickInput ui gp := by
  have h : ui.jseAxisBox = 0 ∨ ui.jseAxisBox = 1 ∨ ui.jseAxisBox = 2 ∨ ui.jseAxisBox = 3 := by
    omega
  unfold tickInput Spec.tickInput tickAx Spec.ax Spec.axisReading Spec.input Spec.lo
    Utility.map
  rcases h with h | h | h | h <;> simp only [h] <;> norm_num <;>
    cases ui.jsInvertedBox <;> cases ui.jsBidirectionalBox <;> simp <;> ring

theorem timerSlot_jsDisp_eq_spec (s : PageSettings) (gp : QGamepad)
    (hg : s.mGamepad = some gp)
    (hm : 0 ≤ s.ui.jsControlTypeBox ∧ s.ui.jsControlTypeBox ≤ 4)
    (ha : 0 ≤ s.ui.jseAxisBox ∧ s.ui.jseAxisBox ≤ 3) :
    s.timerSlot.ui.jsDisp
      = Spec.display s.ui.jsControlTypeBox (Spec.tickRange s.ui gp)
          (Spec.tickOutput s.ui gp) := by
  have hi := tickInput_eq_spec s.ui gp ha
  have h : s.ui.jsControlTypeBox = 0 ∨ s.ui.jsControlTypeBox = 1 ∨ s.ui.jsControlTypeBox = 2 ∨
      s.ui.jsControlTypeBox = 3 ∨ s.ui.jsControlTypeBox = 4 := by omega
  unfold PageSettings.timerSlot
  simp only [hg, hi, Spec.tickOutput, Spec.tickRange, Spec.range, Spec.display]
  rcases h with h | h | h | h | h <;> simp [h]

theorem timerSlot_mVesc_ctrlt0 (s : PageSettings) (gp : QGamepad)
    (hg : s.mGamepad = some gp) (h : s.ui.jsControlTypeBox = 0) :
    s.timerSlot.mVesc = s.whenArmed (.setCurrent s.timerSlot.ui.jsDisp.val) := by
  unfold PageSettings.timerSlot
  simp [hg, h]

theorem timerSlot_mVesc_ctrlt1 (s : PageSettings) (gp : QGamepad)
    (hg : s.mGamepad = some gp) (h : s.ui.jsControlTypeBox = 1) :
    s.timerSlot.mVesc =
      if s.timerSlot.ui.jsDisp.val > 0 then s.whenArmed (.setCurrent s.timerSlot.ui.jsDisp.val)
      else s.whenArmed (.setCurrentBrake s.timerSlot.ui.jsDisp.val) := by
  unfold PageSettings.timerSlot
  simp [hg, h]

theorem timerSlot_mVesc_ctrlt2 (s : PageSettings) (gp : QGamepad)
    (hg : s.mGamepad = some gp) (h : s.ui.jsControlTypeBox = 2) :
    s.timerSlot.mVesc = s.whenArmed (.setDutyCycle s.timerSlot.ui.jsDisp.val) := by
  unfold PageSettings.timerSlot
  simp [hg, h]

theorem timerSlot_mVesc_ctrlt3 (s : PageSettings) (gp : QGamepad)
    (hg : s.mGamepad = some gp) (h : s.ui.jsControlTypeBox = 3) :
    s.timerSlot.mVesc = s.whenArmed (.setRpm s.timerSlot.ui.jsDisp.val) := by
  unfold PageSettings.timerSlot
  simp [hg, h]

theorem timerSlot_mVesc_ctrlt4 (s : PageSettings) (gp : QGamepad)
    (hg : s.mGamepad = some gp) (h : s.ui.jsControlTypeBox = 4) :
    s.timerSlot.mVesc = s.whenArmed (.setPos s.timerSlot.ui.jsDisp.val) := by
  unfold PageSettings.timerSlot
  simp [hg, h]

/-- C4: with a device attached, a control-type index in 0..4, a selected axis in 0..3 and
`rawMin ≠ rawMax`, the display receives the range, the output `input * range`, and the
name, unit and decimals of the reference definition; and when the page is armed with a
controller present, the controller receives exactly one more command, carrying that same
output: `setDutyCycle` for index 2, `setRpm` for 3, `setPos` for 4 and a current command
for 0 and 1. -/
theorem timerSlot_pipeline (s : PageSettings) (gp : QGamepad)
    (hg : s.mGamepad = some gp)
    (hm : 0 ≤ s.ui.jsControlTypeBox ∧ s.ui.jsControlTypeBox ≤ 4)
    (ha : 0 ≤ s.ui.jseAxisBox ∧ s.ui.jseAxisBox ≤ 3)
    (_hr : s.ui.jsMinBox ≠ s.ui.jsMaxBox) :
    s.timerSlot.ui.jsDisp
      = Spec.display s.ui.jsControlTypeBox (Spec.tickRange s.ui gp) (Spec.tickOutput s.ui gp) ∧
    (∀ v, s.mVesc = some v → s.mUseGamepadControl = true →
      ∃ c, s.timerSlot.mVesc = some (v.send c) ∧
        c.value = Spec.tickOutput s.ui gp ∧
        (s.ui.jsControlTypeBox = 0 ∨ s.ui.jsControlTypeBox = 1 →
          c = .setCurrent (Spec.tickOutput s.ui gp) ∨
          c = .setCurrentBrake (Spec.tickOutput s.ui gp)) ∧
        (s.ui.jsControlTypeBox = 2 → c = .setDutyCycle (Spec.tickOutput s.ui gp)) ∧
        (s.ui.jsControlTypeBox = 3 → c = .setRpm (Spec.tickOutput s.ui gp)) ∧
        (s.ui.jsControlTypeBox = 4 → c = .setPos (Spec.tickOutput s.ui gp))) := by
  have hd := timerSlot_jsDisp_eq_spec s gp hg hm ha
  have hval : s.timerSlot.ui.jsDisp.val = Spec.tickOutput s.ui gp := by
    rw [hd]
    unfold Spec.display
    split_ifs <;> rfl
  have h : s.ui.jsControlTypeBox = 0 ∨ s.ui.jsControlTypeBox = 1 ∨ s.ui.jsControlTypeBox = 2 ∨
      s.ui.jsControlTypeBox = 3 ∨ s.ui.jsControlTypeBox = 4 := by omega
  refine ⟨hd, ?_⟩
  intro v hv hu
  have hs : ∀ c, s.whenArmed c = some (v.send c) := fun c => whenArmed_armed s c v hv hu
  rcases h with h | h | h | h | h
  · refine ⟨.setCurrent (Spec.tickOutput s.ui gp), ?_, rfl, fun _ => Or.inl rfl, ?_, ?_, ?_⟩
    · rw [timerSlot_mVesc_ctrlt0 s gp hg h, hs, hval]
    all_goals simp [h]
  · by_cases hp : s.timerSlot.ui.jsDisp.val > 0
    · refine ⟨.setCurrent (Spec.tickOutput s.ui gp), ?_, rfl, fun _ => Or.inl rfl, ?_, ?_, ?_⟩
      · rw [timerSlot_mVesc_ctrlt1 s gp hg h, if_pos hp, hs, hval]
      all_goals simp [h]
    · refine ⟨.setCurrentBrake (Spec.tickOutput s.ui gp), ?_, rfl, fun _ => Or.inr rfl,
        ?_, ?_, ?_⟩
      · rw [timerSlot_mVesc_ctrlt1 s gp hg h, if_neg hp, hs, hval]
      all_goals simp [h]
  · refine ⟨.setDutyCycle (Spec.tickOutput s.ui gp), ?_, rfl, ?_, fun _ => rfl, ?_, ?_⟩
    · rw [timerSlot_mVesc_ctrlt2 s gp hg h, hs, hval]
    all_goals simp [h]
  · refine ⟨.setRpm (Spec.tickOutput s.ui gp), ?_, rfl, ?_, ?_, fun _ => rfl, ?_⟩
    · rw [timerSlot_mVesc_ctrlt3 s gp hg h, hs, hval]
    all_goals simp [h]
  · refine ⟨.setPos (Spec.tickOutput s.ui gp), ?_, rfl, ?_, ?_, ?_, fun _ => rfl⟩
    · rw [timerSlot_mVesc_ctrlt4 s gp hg h, hs, hval]
    all_goals simp [h]

/-- C4 applied to scenario 1: the display shows the current 22.5 of range 30 and the
controller receives one command carrying 22.5. -/
theorem timerSlot_pipeline_witness :
    scenario1Page.mGamepad = some (padReading (1/2) true) ∧
    scenario1Page.ui.jsMinBox ≠ scenario1Page.ui.jsMaxBox ∧
    scenario1Page.timerSlot.ui.jsDisp = ⟨30, " A", "Current", 45/2, 2⟩ ∧
    ∃ c, scenario1Page.timerSlot.mVesc = some (freshVesc.send c) ∧ c.value = 45/2 := by
  have hr : scenario1Page.ui.jsMinBox ≠ scenario1Page.ui.jsMaxBox := by
    norm_num [scenario1Page, armedPage, scenarioUi]
  have h := timerSlot_pipeline scenario1Page (padReading (1/2) true) rfl
    (by decide) (by decide) hr
  have ho : Spec.tickOutput scenario1Page.ui (padReading (1/2) true) = 45/2 := by
    norm_num [Spec.tickOutput, Spec.tickRange, Spec.range, Spec.tickInput, Spec.input,
      Spec.ax, Spec.axisReading, Spec.lo, scenario1Page, armedPage, scenarioUi, padReading]
  refine ⟨rfl, hr, ?_, ?_⟩
  · rw [h.1, ho]
    norm_num [Spec.display, Spec.tickRange, Spec.range, Spec.tickInput, Spec.input,
      Spec.ax, Spec.axisReading, Spec.lo, scenario1Page, armedPage, scenarioUi, padReading]
  · obtain ⟨c, hc, hval, _⟩ := h.2 freshVesc rfl rfl
    exact ⟨c, hc, hval.trans ho⟩

/-- Scenario 1, evaluated: one tick writes the bar 500 and the display (30, " A",
"Current", 22.5, 2), and the controller receives `setCurrent(22.5)`. -/
theorem scenario1_tick :
    scenario1Page.timerSlot
      = { scenario1Page with
          ui := scenarioUi.withOutputs 500 0 0 0 ⟨30, " A", "Current", 45/2, 2⟩
          mVesc := some ⟨[.setCurrent (45/2)], []⟩ } := by
  norm_num [PageSettings.timerSlot, scenario1Page, armedPage, scenarioUi, padReading,
    freshVesc, PageSettings.whenArmed, VescInterface.send, Utility.map, tickInput, tickAx,
    Ui.withOutputs]

/-- Scenario 3, evaluated: the input is 0.8, the display receives (20000, " ERPM",
"Speed", 16000, 0), and the controller receives `setRpm(16000)`. -/
theorem scenario3_tick :
    tickInput scenario3Page.ui (padReading (4/5) true) = 4/5 ∧
    scenario3Page.timerSlot.ui.jsDisp = ⟨20000, " ERPM", "Speed", 16000, 0⟩ ∧
    scenario3Page.timerSlot.mVesc = some ⟨[.setRpm 16000], []⟩ := by
  norm_num [PageSettings.timerSlot, scenario3Page, armedPage, scenarioUi, padReading,
    freshVesc, PageSettings.whenArmed, VescInterface.send, Utility.map, tickInput, tickAx]

/-! ## The two current modes -/

/-- C2, refuted as stated: in scenario 2 the control type is the first one (index 0), the
scaled input is -8 < 0, and the one command the controller receives is `setCurrent(-8)`,
not `setCurrentBrake(-8)`. -/
theorem ctrlt0_negative_input_counterexample :
    scenario2Page.ui.jsControlTypeBox = 0 ∧
    tickInput scenario2Page.ui (padReading (-2/5) true) = -2/5 ∧
    scenario2Page.timerSlot.ui.jsDisp.range = 20 ∧
    scenario2Page.timerSlot.ui.jsDisp.val = -8 ∧
    scenario2Page.timerSlot.mVesc = some (freshVesc.send (.setCurrent (-8))) ∧
    scenario2Page.timerSlot.mVesc ≠ some (freshVesc.send (.setCurrentBrake (-8))) := by
  norm_num [PageSettings.timerSlot, scenario2Page, armedPage, scenarioUi, padReading,
    freshVesc, PageSettings.whenArmed, VescInterface.send, Utility.map, tickInput, tickAx]
  intro h
  cases h

/-- C2, amended: with a device attached, a controller present, the page armed and the
first control type (index 0) selected, the controller receives exactly one more command
and it is `setCurrent(output)`, whatever the sign of the output; the output is the value
pushed to the display, `input * range` of the reference definition when the selected axis
is in 0..3. -/
theorem ctrlt0_dispatch (s : PageSettings) (gp : QGamepad) (v : VescInterface)
    (hg : s.mGamepad = some gp) (hv : s.mVesc = some v)
    (hu : s.mUseGamepadControl = true) (h0 : s.ui.jsControlTypeBox = 0) :
    s.timerSlot.mVesc = some (v.send (.setCurrent s.timerSlot.ui.jsDisp.val)) ∧
    (0 ≤ s.ui.jseAxisBox ∧ s.ui.jseAxisBox ≤ 3 →
      s.timerSlot.ui.jsDisp.val = Spec.tickOutput s.ui gp) := by
  refine ⟨?_, fun ha => ?_⟩
  · rw [timerSlot_mVesc_ctrlt0 s gp hg h0, whenArmed_armed s _ v hv hu]
  · rw [timerSlot_jsDisp_eq_spec s gp hg (by omega) ha]
    simp [Spec.display, h0]

/-- C2, amended, applied to scenario 2. -/
theorem ctrlt0_dispatch_witness :
    scenario2Page.timerSlot.mVesc
      = some (freshVesc.send (.setCurrent scenario2Page.timerSlot.ui.jsDisp.val)) :=
  (ctrlt0_dispatch scenario2Page (padReading (-2/5) true) freshVesc rfl rfl rfl rfl).1

/-- C3, refuted as stated: with the second control type (index 1) selected and the
calibration and reading of scenario 2, the scaled input is -8 and the one command the
controller receives is `setCurrentBrake(-8)`, not `setCurrent(-8)`. -/
theorem ctrlt1_negative_input_counterexample :
    scenario2Page1.ui.jsControlTypeBox = 1 ∧
    scenario2Page1.timerSlot.ui.jsDisp.val = -8 ∧
    scenario2Page1.timerSlot.mVesc = some (freshVesc.send (.setCurrentBrake (-8))) ∧
    scenario2Page1.timerSlot.mVesc ≠ some (freshVesc.send (.setCurrent (-8))) := by
  norm_num [PageSettings.timerSlot, scenario2Page1, armedPage, scenarioUi, padReading,
    freshVesc, PageSettings.whenArmed, VescInterface.send, Utility.map, tickInput, tickAx]
  intro h
  cases h

/-- C3, amended: with a device attached, a controller present, the page armed and the
second control type (index 1) selected, the controller receives exactly one more command:
`setCurrent(output)` when the output is positive, `setCurrentBrake(output)` when it is
zero or negative; the output is the value pushed to the display, `input * range` of the
reference definition when the selected axis is in 0..3. -/
theorem ctrlt1_dispatch (s : PageSettings) (gp : QGamepad) (v : VescInterface)
    (hg : s.mGamepad = some gp) (hv : s.mVesc = some v)
    (hu : s.mUseGamepadControl = true) (h1 : s.ui.jsControlTypeBox = 1) :
    (s.timerSlot.ui.jsDisp.val > 0 →
      s.timerSlot.mVesc = some (v.send (.setCurrent s.timerSlot.ui.jsDisp.val))) ∧
    (s.timerSlot.ui.jsDisp.val ≤ 0 →
      s.timerSlot.mVesc = some (v.send (.setCurrentBrake s.timerSlot.ui.jsDisp.val))) ∧
    (0 ≤ s.ui.jseAxisBox ∧ s.ui.jseAxisBox ≤ 3 →
      s.timerSlot.ui.jsDisp.val = Spec.tickOutput s.ui gp) := by
  refine ⟨fun hp => ?_, fun hn => ?_, fun ha => ?_⟩
  · rw [timerSlot_mVesc_ctrlt1 s gp hg h1, if_pos hp, whenArmed_armed s _ v hv hu]
  · rw [timerSlot_mVesc_ctrlt1 s gp hg h1, if_neg (not_lt.mpr hn),
      whenArmed_armed s _ v hv hu]
  · rw [timerSlot_jsDisp_eq_spec s gp hg (by omega) ha]
    simp [Spec.display, h1]

/-- C3, amended, applied to the page of scenario 2 with index 1: the output -8 is not
positive and the command is `setCurrentBrake`. -/
theorem ctrlt1_dispatch_witness :
    scenario2Page1.timerSlot.ui.jsDisp.val ≤ 0 ∧
    scenario2Page1.timerSlot.mVesc
      = some (freshVesc.send (.setCurrentBrake scenario2Page1.timerSlot.ui.jsDisp.val)) := by
  have hn : scenario2Page1.timerSlot.ui.jsDisp.val ≤ 0 := by
    norm_num [PageSettings.timerSlot, scenario2Page1, armedPage, scenarioUi, padReading,
      Utility.map, tickInput, tickAx]
  exact ⟨hn, (ctrlt1_dispatch scenario2Page1 (padReading (-2/5) true) freshVesc
    rfl rfl rfl rfl).2.1 hn⟩

/-! ## The inversion scenario -/

/-- C9, refuted as stated: in scenario 4 the input is not -0.25, the range is not 20, the
output is not -5 and the controller does not receive `setCurrentBrake(-5)`. -/
theorem inversion_scenario_counterexample :
    tickInput scenario4Page.ui (padReading (1/2) true) ≠ -1/4 ∧
    scenario4Page.timerSlot.ui.jsDisp.range ≠ 20 ∧
    scenario4Page.timerSlot.ui.jsDisp.val ≠ -5 ∧
    scenario4Page.timerSlot.mVesc ≠ some (freshVesc.send (.setCurrentBrake (-5))) := by
  norm_num [PageSettings.timerSlot, scenario4Page, armedPage, scenarioUi, padReading,
    freshVesc, PageSettings.whenArmed, VescInterface.send, Utility.map, tickInput, tickAx]
  intro h
  cases h

/-- C9, amended: in scenario 4 (axis 0 reading 0.5, inverted, unidirectional, raw range
-1000..1000, control type 0, current limits -20 and 30, armed, controller present) one
tick computes the effective ax -500, the input 0.25, the range 30 and the output 7.5, and
the single command the controller receives is `setCurrent(7.5)`. -/
theorem inversion_scenario_tick :
    tickAx scenario4Page.ui (padReading (1/2) true) = -500 ∧
    tickInput scenario4Page.ui (padReading (1/2) true) = 1/4 ∧
    scenario4Page.timerSlot.ui.jsDisp = ⟨30, " A", "Current", 15/2, 2⟩ ∧
    scenario4Page.timerSlot.mVesc = some (freshVesc.send (.setCurrent (15/2))) := by
  norm_num [PageSettings.timerSlot, scenario4Page, armedPage, scenarioUi, padReading,
    freshVesc, PageSettings.whenArmed, VescInterface.send, Utility.map, tickInput, tickAx]

/-! ## The arming setter -/

theorem exists_device_of_ne_none (s : PageSettings) (hg : s.mGamepad ≠ none) :
    ∃ gp, s.mGamepad = some gp := by
  cases h : s.mGamepad with
  | none => exact absurd h hg
  | some gp => exact ⟨gp, rfl⟩

theorem setUseGamepadControl_unconfigured (s : PageSettings) (v : VescInterface)
    (b : Bool) (hv : s.mVesc = some v) (hc : s.ui.jsConfigOkBox = false) :
    s.setUseGamepadControl b
      = some { s with mVesc := some { v with dialogs := v.dialogs ++ [notConfiguredDialog] } } := by
  unfold PageSettings.setUseGamepadControl
  simp [hv, hc, VescInterface.emitMessageDialog, notConfiguredDialog]

theorem setUseGamepadControl_no_device (s : PageSettings) (v : VescInterface)
    (b : Bool) (hv : s.mVesc = some v) (hc : s.ui.jsConfigOkBox = true)
    (hg : s.mGamepad = none) :
    s.setUseGamepadControl b
      = some { s with mVesc := some { v with dialogs := v.dialogs ++ [noGamepadDialog] } } := by
  unfold PageSettings.setUseGamepadControl
  simp [hv, hc, hg, VescInterface.emitMessageDialog, noGamepadDialog]

theorem setUseGamepadControl_accepted (s : PageSettings) (gp : QGamepad) (b : Bool)
    (hc : s.ui.jsConfigOkBox = true) (hg : s.mGamepad = some gp) :
    s.setUseGamepadControl b = some { s with mUseGamepadControl := b } := by
  unfold PageSettings.setUseGamepadControl
  simp [hc, hg]

/-- C5: with a controller present, `setUseGamepadControl(true)` with the calibration box
unchecked, or with no device attached, emits exactly one dialog through the controller and
changes nothing else: the widgets, the device pointer, the armed flag and the command
trace keep their values, so a page that was disarmed dispatches nothing on the next tick.
With the box checked and a device attached the call sets the flag to the requested value
and emits no dialog. -/
theorem setUseGamepadControl_rejection (s : PageSettings) (v : VescInterface)
    (hv : s.mVesc = some v) :
    (s.ui.jsConfigOkBox = false ∨ s.mGamepad = none →
      ∃ d s1, s.setUseGamepadControl true = some s1 ∧
        d = (if s.ui.jsConfigOkBox then noGamepadDialog else notConfiguredDialog) ∧
        s1 = { s with mVesc := some { v with dialogs := v.dialogs ++ [d] } } ∧
        s1.isUsingGamepadControl = s.isUsingGamepadControl ∧
        s1.mGamepad = s.mGamepad ∧
        (s.isUsingGamepadControl = false → s1.timerSlot.mVesc = s1.mVesc)) ∧
    (s.ui.jsConfigOkBox = true → s.mGamepad ≠ none →
      ∀ b, ∃ s1, s.setUseGamepadControl b = some s1 ∧
        s1 = { s with mUseGamepadControl := b } ∧
        s1.isUsingGamepadControl = b ∧ s1.mVesc = s.mVesc) := by
  refine ⟨fun h => ?_, fun hc hg b => ?_⟩
  · have key : s.setUseGamepadControl true
        = some { s with mVesc := some { v with dialogs := v.dialogs ++
            [if s.ui.jsConfigOkBox then noGamepadDialog else notConfiguredDialog] } } := by
      cases hc : s.ui.jsConfigOkBox with
      | false => exact setUseGamepadControl_unconfigured s v true hv hc
      | true =>
        rcases h with h | h
        · rw [hc] at h
          cases h
        · exact setUseGamepadControl_no_device s v true hv hc h
    exact ⟨_, _, key, rfl, rfl, rfl, rfl, fun hu => timerSlot_mVesc_disarmed _ hu⟩
  · obtain ⟨gp, hgp⟩ := exists_device_of_ne_none s hg
    exact ⟨_, setUseGamepadControl_accepted s gp b hc hgp, rfl, rfl, rfl⟩

/-- C5 applied to scenario 5: calibration box unchecked, controller and device present,
disarmed. The call emits the "not configured" dialog, the page stays disarmed and the
next tick leaves the controller as it is. -/
theorem setUseGamepadControl_rejection_witness :
    unconfiguredPage.ui.jsConfigOkBox = false ∧
    ∃ d s1, unconfiguredPage.setUseGamepadControl true = some s1 ∧
      d = notConfiguredDialog ∧
      s1 = { unconfiguredPage with mVesc := some { freshVesc with dialogs := [] ++ [d] } } ∧
      s1.isUsingGamepadControl = false ∧
      s1.mGamepad = unconfiguredPage.mGamepad ∧
      (unconfiguredPage.isUsingGamepadControl = false → s1.timerSlot.mVesc = s1.mVesc) :=
  ⟨rfl, (setUseGamepadControl_rejection unconfiguredPage freshVesc rfl).1 (Or.inl rfl)⟩

/-- C10, refuted as stated: with no controller and the calibration box unchecked the call
completes and changes nothing (the "not configured" branch is guarded), while with the box
checked and no device attached the call dereferences the null controller. -/
theorem setUseGamepadControl_null_vesc_counterexample :
    unconfiguredNoVescPage.mVesc = none ∧
    unconfiguredNoVescPage.ui.jsConfigOkBox = false ∧
    unconfiguredNoVescPage.setUseGamepadControl true = some unconfiguredNoVescPage ∧
    configuredNoDevicePage.mVesc = none ∧
    configuredNoDevicePage.ui.jsConfigOkBox = true ∧
    configuredNoDevicePage.setUseGamepadControl true = none := by
  refine ⟨rfl, rfl, rfl, rfl, rfl, rfl⟩

/-- C10, amended: with no controller attached, the call dereferences the null controller
exactly when the calibration box is checked and no device is attached (the "no gamepad"
branch). With the box unchecked the call completes and changes nothing; with the box
checked and a device attached it completes and sets the flag. -/
theorem setUseGamepadControl_null_vesc (s : PageSettings) (useControl : Bool)
    (hv : s.mVesc = none) :
    (s.setUseGamepadControl useControl = none ↔
      s.ui.jsConfigOkBox = true ∧ s.mGamepad = none) ∧
    (s.ui.jsConfigOkBox = false → s.setUseGamepadControl useControl = some s) ∧
    (s.ui.jsConfigOkBox = true → s.mGamepad ≠ none →
      s.setUseGamepadControl useControl
        = some { s with mUseGamepadControl := useControl }) := by
  unfold PageSettings.setUseGamepadControl
  cases hc : s.ui.jsConfigOkBox <;> cases hg : s.mGamepad <;> simp [hv]

/-- C10, amended, applied to the two pages as constructed. -/
theorem setUseGamepadControl_null_vesc_witness :
    (configuredNoDevicePage.setUseGamepadControl false = none ↔
      configuredNoDevicePage.ui.jsConfigOkBox = true ∧
      configuredNoDevicePage.mGamepad = none) ∧
    unconfiguredNoVescPage.setUseGamepadControl false = some unconfiguredNoVescPage :=
  ⟨(setUseGamepadControl_null_vesc configuredNoDevicePage false rfl).1,
   (setUseGamepadControl_null_vesc unconfiguredNoVescPage false rfl).2.1 rfl⟩

/-! ## Disarming -/

theorem step_disarmed (s s1 : PageSettings) (e : Event)
    (hu : s.mUseGamepadControl = false) (ha : e.armsAt s = false)
    (hs : s.step e = some s1) : s1.mUseGamepadControl = false := by
  cases e with
  | timerSlot =>
    simp only [PageSettings.step, Option.some.injEq] at hs
    rw [← hs, timerSlot_mUseGamepadControl]
    exact hu
  | setUseGamepadControl b =>
    simp only [PageSettings.step, PageSettings.setUseGamepadControl] at hs
    cases b <;> cases hc : s.ui.jsConfigOkBox <;> cases hg : s.mGamepad <;>
      cases hv : s.mVesc <;> simp [hc, hg, hv, Event.armsAt] at hs ha <;>
      subst hs <;> simp [hu]
  | setVesc v =>
    simp only [PageSettings.step, PageSettings.setVesc, Option.some.injEq] at hs
    rw [← hs]
    exact hu
  | on_jsConnectButton_clicked item =>
    simp only [PageSettings.step, PageSettings.on_jsConnectButton_clicked,
      Option.some.injEq] at hs
    cases item <;> simp only at hs <;> rw [← hs] <;> exact hu
  | operatorEdit w =>
    simp only [PageSettings.step, Option.some.injEq] at hs
    rw [← hs]
    exact hu
  | deviceReport gp =>
    simp only [PageSettings.step] at hs
    cases hg : s.mGamepad <;> simp [hg] at hs <;> rw [← hs] <;> exact hu

theorem run_disarmed (evs : List Event) (s s2 : PageSettings)
    (hu : s.mUseGamepadControl = false) (ha : s.noArming evs = true)
    (hr : s.run evs = some s2) : s2.mUseGamepadControl = false := by
  induction evs generalizing s with
  | nil =>
    simp only [PageSettings.run, Option.some.injEq] at hr
    rw [← hr]
    exact hu
  | cons e es ih =>
    simp only [PageSettings.run] at hr
    simp only [PageSettings.noArming, Bool.and_eq_true, Bool.not_eq_eq_eq_not, Bool.not_true] at ha
    cases hs : s.step e with
    | none => simp [hs] at hr
    | some s1 =>
      simp only [hs] at hr ha
      exact ih s1 (step_disarmed s s1 e hu ha.1 hs) ha.2 hr

/-- C6, refuted as stated: the page constructed with the calibration of scenario 1 and a
saved device receives a controller, is armed, and the operator unchecks the calibration
box; the state reached has a controller present. The call `setUseGamepadControl(false)`
then emits the "not configured" dialog and returns with the page still armed, and the
next tick sends `setCurrent(22.5)`. -/
theorem disarm_counterexample :
    (PageSettings.init scenarioUi (some (padReading (1/2) true))).run
      [.setVesc (some freshVesc), .setUseGamepadControl true,
       .operatorEdit { scenarioUi with jsConfigOkBox := false }]
      = some armedUnconfiguredPage ∧
    armedUnconfiguredPage.setUseGamepadControl false = some afterDisarmRequestPage ∧
    afterDisarmRequestPage.isUsingGamepadControl = true ∧
    afterDisarmRequestPage.timerSlot.mVesc
      = some ⟨[.setCurrent (45/2)], [notConfiguredDialog]⟩ := by
  refine ⟨rfl, rfl, rfl, ?_⟩
  norm_num [PageSettings.timerSlot, afterDisarmRequestPage, armedUnconfiguredPage, armedPage,
    scenarioUi, padReading, PageSettings.whenArmed, VescInterface.send, Utility.map,
    tickInput, tickAx]

/-- C6, amended: when the calibration box is checked and a device is attached,
`setUseGamepadControl(false)` returns with `isUsingGamepadControl()` false, and along any
later events among which no arming request succeeds the page stays disarmed and no tick
invokes a controller operation. When the box is unchecked or no device is attached (and a
controller is present), the call emits exactly one dialog through the controller ("not
configured" when the box is unchecked, "no recognized gamepad" otherwise) and changes
nothing else: the flag, the device pointer, the widgets and the command trace keep their
values. -/
theorem setUseGamepadControl_false_disarms (s : PageSettings) :
    (s.ui.jsConfigOkBox = true → s.mGamepad ≠ none →
      ∃ s1, s.setUseGamepadControl false = some s1 ∧
        s1.isUsingGamepadControl = false ∧
        ∀ evs s2, s1.noArming evs = true → s1.run evs = some s2 →
          s2.isUsingGamepadControl = false ∧ s2.timerSlot.mVesc = s2.mVesc) ∧
    (∀ v, s.mVesc = some v → s.ui.jsConfigOkBox = false ∨ s.mGamepad = none →
      ∃ s1, s.setUseGamepadControl false = some s1 ∧
        s1 = { s with mVesc := some { v with dialogs := v.dialogs ++
          [if s.ui.jsConfigOkBox then noGamepadDialog else notConfiguredDialog] } } ∧
        s1.isUsingGamepadControl = s.isUsingGamepadControl ∧
        s1.mGamepad = s.mGamepad) := by
  refine ⟨fun hc hg => ?_, fun v hv h => ?_⟩
  · obtain ⟨gp, hgp⟩ := exists_device_of_ne_none s hg
    refine ⟨_, setUseGamepadControl_accepted s gp false hc hgp, rfl, fun evs s2 ha hr => ?_⟩
    have h2 : s2.mUseGamepadControl = false := run_disarmed evs _ s2 rfl ha hr
    exact ⟨h2, timerSlot_mVesc_disarmed s2 h2⟩
  · have key : s.setUseGamepadControl false
        = some { s with mVesc := some { v with dialogs := v.dialogs ++
            [if s.ui.jsConfigOkBox then noGamepadDialog else notConfiguredDialog] } } := by
      cases hc : s.ui.jsConfigOkBox with
      | false => exact setUseGamepadControl_unconfigured s v false hv hc
      | true =>
        rcases h with h | h
        · rw [hc] at h
          cases h
        · exact setUseGamepadControl_no_device s v false hv hc h
    exact ⟨_, key, rfl, rfl, rfl⟩

/-- C6, amended, applied to the armed page of scenario 1 and to the same page with the
calibration box unchecked (where the call only emits the "not configured" dialog). On the
page of scenario 1 the call disarms it; then a
tick, the operator unchecking the calibration box, an arming request (rejected) and a
second tick leave the page disarmed, and a further tick leaves the controller as it is. -/
theorem setUseGamepadControl_false_disarms_witness :
    scenario1Page.ui.jsConfigOkBox = true ∧ scenario1Page.mGamepad ≠ none ∧
    scenario1Page.setUseGamepadControl false = some disarmedPage ∧
    (∃ s1, armedUnconfiguredPage.setUseGamepadControl false = some s1 ∧
      s1 = { armedUnconfiguredPage with
        mVesc := some { freshVesc with dialogs := [] ++ [notConfiguredDialog] } } ∧
      s1.isUsingGamepadControl = armedUnconfiguredPage.isUsingGamepadControl ∧
      s1.mGamepad = armedUnconfiguredPage.mGamepad) ∧
    disarmedPage.noArming
      [.timerSlot, .operatorEdit { scenarioUi with jsConfigOkBox := false },
       .setUseGamepadControl true, .timerSlot] = true ∧
    ∃ s2, disarmedPage.run
      [.timerSlot, .operatorEdit { scenarioUi with jsConfigOkBox := false },
       .setUseGamepadControl true, .timerSlot] = some s2 ∧
      s2.isUsingGamepadControl = false ∧ s2.timerSlot.mVesc = s2.mVesc := by
  have hg : scenario1Page.mGamepad ≠ none := by simp [scenario1Page, armedPage]
  obtain ⟨s1, h1, _, h3⟩ := (setUseGamepadControl_false_disarms scenario1Page).1 rfl hg
  have hs : scenario1Page.setUseGamepadControl false = some disarmedPage := rfl
  have he : s1 = disarmedPage := by
    rw [hs] at h1
    exact (Option.some.inj h1).symm
  subst he
  have hna : disarmedPage.noArming
      [.timerSlot, .operatorEdit { scenarioUi with jsConfigOkBox := false },
       .setUseGamepadControl true, .timerSlot] = true := rfl
  have hsome : (disarmedPage.run
      [.timerSlot, .operatorEdit { scenarioUi with jsConfigOkBox := false },
       .setUseGamepadControl true, .timerSlot]).isSome = true := rfl
  obtain ⟨s2, hs2⟩ := Option.isSome_iff_exists.mp hsome
  exact ⟨rfl, hg, hs,
    (setUseGamepadControl_false_disarms armedUnconfiguredPage).2 freshVesc rfl (Or.inl rfl),
    hna, s2, hs2, h3 _ s2 hna hs2⟩

/-! ## Disconnection -/

theorem map_bounds (rawMin rawMax lo ax : ℚ) (h : rawMin < rawMax)
    (hlo : lo = -1 ∨ lo = 0) (h1 : rawMin ≤ ax) (h2 : ax ≤ rawMax) :
    lo ≤ Utility.map ax rawMin rawMax lo 1 ∧ Utility.map ax rawMin rawMax lo 1 ≤ 1 := by
  have hpos : 0 < rawMax - rawMin := sub_pos.mpr h
  have hl : 0 ≤ 1 - lo := by rcases hlo with h | h <;> rw [h] <;> norm_num
  have ha : 0 ≤ (ax - rawMin) * (1 - lo) / (rawMax - rawMin) :=
    div_nonneg (mul_nonneg (sub_nonneg.mpr h1) hl) hpos.le
  have hb : (ax - rawMin) * (1 - lo) / (rawMax - rawMin) ≤ 1 - lo := by
    rw [div_le_iff₀ hpos]
    nlinarith
  unfold Utility.map
  constructor <;> linarith

theorem tickInput_bounds (ui : Ui) (gp : QGamepad) (h : ui.jsMinBox < ui.jsMaxBox)
    (h1 : ui.jsMinBox ≤ tickAx ui gp) (h2 : tickAx ui gp ≤ ui.jsMaxBox) :
    Spec.lo ui.jsBidirectionalBox ≤ tickInput ui gp ∧ tickInput ui gp ≤ 1 := by
  unfold tickInput Spec.lo
  exact map_bounds _ _ _ _ h (by cases ui.jsBidirectionalBox <;> simp) h1 h2

theorem timerSlot_jsDisp_cases (s : PageSettings) (gp : QGamepad)
    (hg : s.mGamepad = some gp) :
    ((s.ui.jsControlTypeBox = 0 ∨ s.ui.jsControlTypeBox = 1) ∧
      s.timerSlot.ui.jsDisp.range
        = (if tickInput s.ui gp ≥ 0 then |s.ui.jsCurrentMaxBox| else |s.ui.jsCurrentMinBox|) ∧
      s.timerSlot.ui.jsDisp.val = tickInput s.ui gp * s.timerSlot.ui.jsDisp.range) ∨
    (s.ui.jsControlTypeBox = 2 ∧ s.timerSlot.ui.jsDisp.range = 1 ∧
      s.timerSlot.ui.jsDisp.val = tickInput s.ui gp * s.timerSlot.ui.jsDisp.range) ∨
    (s.ui.jsControlTypeBox = 3 ∧
      s.timerSlot.ui.jsDisp.range
        = (if tickInput s.ui gp ≥ 0 then |s.ui.jsErpmMaxBox| else |s.ui.jsErpmMinBox|) ∧
      s.timerSlot.ui.jsDisp.val = tickInput s.ui gp * s.timerSlot.ui.jsDisp.range) ∨
    (s.ui.jsControlTypeBox = 4 ∧ s.timerSlot.ui.jsDisp.range = 360 ∧
      s.timerSlot.ui.jsDisp.val = tickInput s.ui gp * s.timerSlot.ui.jsDisp.range) ∨
    ((s.ui.jsControlTypeBox < 0 ∨ 4 < s.ui.jsControlTypeBox) ∧
      s.timerSlot.mVesc = s.mVesc ∧
      s.timerSlot.ui.jsDisp.range = 0 ∧ s.timerSlot.ui.jsDisp.val = tickInput s.ui gp) := by
  unfold PageSettings.timerSlot
  simp only [hg]
  by_cases h01 : s.ui.jsControlTypeBox = 0 ∨ s.ui.jsControlTypeBox = 1
  · exact Or.inl ⟨h01, by simp [h01], by simp [h01]⟩
  · by_cases h2 : s.ui.jsControlTypeBox = 2
    · exact Or.inr (Or.inl ⟨h2, by simp [h2], by simp [h2]⟩)
    · by_cases h3 : s.ui.jsControlTypeBox = 3
      · exact Or.inr (Or.inr (Or.inl ⟨h3, by simp [h3], by simp [h3]⟩))
      · by_cases h4 : s.ui.jsControlTypeBox = 4
        · exact Or.inr (Or.inr (Or.inr (Or.inl ⟨h4, by simp [h4], by simp [h4]⟩)))
        · refine Or.inr (Or.inr (Or.inr (Or.inr ⟨?_, ?_, ?_, ?_⟩)))
          · omega
          all_goals simp [h01, h2, h3, h4]

theorem send_ne_self (v : VescInterface) (c : Command) : v.send c ≠ v := by
  intro h
  have hc : (v.send c).commands = v.commands := by rw [h]
  simp [VescInterface.send] at hc

theorem send_injective (v : VescInterface) (c1 c2 : Command)
    (h : v.send c1 = v.send c2) : c1 = c2 := by
  have hc : (v.send c1).commands = (v.send c2).commands := by rw [h]
  simpa [VescInterface.send] using hc

theorem whenArmed_eq_send (s : PageSettings) (v : VescInterface) (c1 c2 : Command)
    (hv : s.mVesc = some v) (h : s.whenArmed c1 = some (v.send c2)) : c1 = c2 := by
  unfold PageSettings.whenArmed at h
  rw [hv] at h
  cases hu : s.mUseGamepadControl with
  | false =>
    simp only [hu, Bool.false_eq_true, if_false, Option.some.injEq] at h
    exact absurd h.symm (send_ne_self v c2)
  | true =>
    simp only [hu, if_true, Option.some.injEq] at h
    exact send_injective v c1 c2 h

theorem timerSlot_dispatched_value (s : PageSettings) (gp : QGamepad) (v : VescInterface)
    (c : Command) (hg : s.mGamepad = some gp) (hv : s.mVesc = some v)
    (h : s.timerSlot.mVesc = some (v.send c)) : c.value = s.timerSlot.ui.jsDisp.val := by
  rcases timerSlot_jsDisp_cases s gp hg with ⟨h01, _⟩ | ⟨h2, _⟩ | ⟨h3, _⟩ | ⟨h4, _⟩ | ⟨_, h5, _⟩
  · rcases h01 with h0 | h1
    · rw [timerSlot_mVesc_ctrlt0 s gp hg h0] at h
      rw [← whenArmed_eq_send s v _ c hv h]
      rfl
    · rw [timerSlot_mVesc_ctrlt1 s gp hg h1] at h
      split_ifs at h
      · rw [← whenArmed_eq_send s v _ c hv h]
        rfl
      · rw [← whenArmed_eq_send s v _ c hv h]
        rfl
  · rw [timerSlot_mVesc_ctrlt2 s gp hg h2] at h
    rw [← whenArmed_eq_send s v _ c hv h]
    rfl
  · rw [timerSlot_mVesc_ctrlt3 s gp hg h3] at h
    rw [← whenArmed_eq_send s v _ c hv h]
    rfl
  · rw [timerSlot_mVesc_ctrlt4 s gp hg h4] at h
    rw [← whenArmed_eq_send s v _ c hv h]
    rfl
  · rw [h5, hv, Option.some.injEq] at h
    exact absurd h.symm (send_ne_self v c)

/-- C8, refuted as stated: the armed page of scenario 1 with control-type index 5. A
device is attached and the effective reading 500 lies in the raw range -1000..1000, yet
the tick pushes the range 0 and the unscaled input 3/4 to the display, so the displayed
value exceeds the range. -/
theorem undefined_mode_bound_counterexample :
    undefinedModePage.mGamepad = some (padReading (1/2) true) ∧
    undefinedModePage.ui.jsMinBox < undefinedModePage.ui.jsMaxBox ∧
    undefinedModePage.ui.jsMinBox ≤ tickAx undefinedModePage.ui (padReading (1/2) true) ∧
    tickAx undefinedModePage.ui (padReading (1/2) true) ≤ undefinedModePage.ui.jsMaxBox ∧
    undefinedModePage.timerSlot.ui.jsDisp = ⟨0, "", "Undefined", 3/4, 2⟩ ∧
    ¬ (undefinedModePage.timerSlot.ui.jsDisp.val
        ≤ undefinedModePage.timerSlot.ui.jsDisp.range) := by
  norm_num [PageSettings.timerSlot, undefinedModePage, armedPage, scenarioUi, padReading,
    Utility.map, tickInput, tickAx]

/-- C8, amended: for `rawMin < rawMax`, `lo` in {-1, 0} and `rawMin ≤ ax ≤ rawMax`, the remap
`map(ax, rawMin, rawMax, lo, 1) = lo + (ax - rawMin) * (1 - lo) / (rawMax - rawMin)` lies
in `[lo, 1]`. Consequently, for a tick with a device attached whose effective reading lies
in `[rawMin, rawMax]`: the range pushed to the display is nonnegative; in each of the five
control modes (index 0..4) the value displayed satisfies `lo * range ≤ output ≤ range`; in
the two current modes `-|currentMin| ≤ output ≤ |currentMax|`; in the speed mode
`-|speedMin| ≤ output ≤ |speedMax|`; the output is nonnegative when `bidirectional` is
off; and a command the controller receives carries the displayed value. -/
theorem map_and_output_bounded :
    (∀ rawMin rawMax lo ax : ℚ, rawMin < rawMax → lo = -1 ∨ lo = 0 →
      rawMin ≤ ax → ax ≤ rawMax →
      Utility.map ax rawMin rawMax lo 1
        = lo + (ax - rawMin) * (1 - lo) / (rawMax - rawMin) ∧
      lo ≤ Utility.map ax rawMin rawMax lo 1 ∧ Utility.map ax rawMin rawMax lo 1 ≤ 1) ∧
    (∀ (s : PageSettings) (gp : QGamepad), s.mGamepad = some gp →
      s.ui.jsMinBox < s.ui.jsMaxBox →
      s.ui.jsMinBox ≤ tickAx s.ui gp → tickAx s.ui gp ≤ s.ui.jsMaxBox →
      0 ≤ s.timerSlot.ui.jsDisp.range ∧
      (0 ≤ s.ui.jsControlTypeBox ∧ s.ui.jsControlTypeBox ≤ 4 →
        Spec.lo s.ui.jsBidirectionalBox * s.timerSlot.ui.jsDisp.range
          ≤ s.timerSlot.ui.jsDisp.val ∧
        s.timerSlot.ui.jsDisp.val ≤ s.timerSlot.ui.jsDisp.range) ∧
      (s.ui.jsControlTypeBox = 0 ∨ s.ui.jsControlTypeBox = 1 →
        -|s.ui.jsCurrentMinBox| ≤ s.timerSlot.ui.jsDisp.val ∧
        s.timerSlot.ui.jsDisp.val ≤ |s.ui.jsCurrentMaxBox|) ∧
      (s.ui.jsControlTypeBox = 3 →
        -|s.ui.jsErpmMinBox| ≤ s.timerSlot.ui.jsDisp.val ∧
        s.timerSlot.ui.jsDisp.val ≤ |s.ui.jsErpmMaxBox|) ∧
      (s.ui.jsBidirectionalBox = false → 0 ≤ s.timerSlot.ui.jsDisp.val) ∧
      (∀ v c, s.mVesc = some v → s.timerSlot.mVesc = some (v.send c) →
        c.value = s.timerSlot.ui.jsDisp.val)) := by
  refine ⟨fun rawMin rawMax lo ax h hlo h1 h2 =>
    ⟨rfl, map_bounds rawMin rawMax lo ax h hlo h1 h2⟩, ?_⟩
  intro s gp hg h h1 h2
  obtain ⟨hi1, hi2⟩ := tickInput_bounds s.ui gp h h1 h2
  have hlo : -1 ≤ Spec.lo s.ui.jsBidirectionalBox ∧ Spec.lo s.ui.jsBidirectionalBox ≤ 0 := by
    unfold Spec.lo
    cases s.ui.jsBidirectionalBox <;> simp
  have hlo0 : s.ui.jsBidirectionalBox = false → Spec.lo s.ui.jsBidirectionalBox = 0 := by
    intro hb
    simp [Spec.lo, hb]
  have a1 := abs_nonneg s.ui.jsCurrentMaxBox
  have a2 := abs_nonneg s.ui.jsCurrentMinBox
  have a3 := abs_nonneg s.ui.jsErpmMaxBox
  have a4 := abs_nonneg s.ui.jsErpmMinBox
  refine ⟨?_, ?_, ?_, ?_, ?_, fun v c hv hc => timerSlot_dispatched_value s gp v c hg hv hc⟩
  · rcases timerSlot_jsDisp_cases s gp hg with
      ⟨_, hr, _⟩ | ⟨_, hr, _⟩ | ⟨_, hr, _⟩ | ⟨_, hr, _⟩ | ⟨_, _, hr, _⟩ <;> rw [hr]
    · split_ifs <;> assumption
    · norm_num
    · split_ifs <;> assumption
    · norm_num
  · intro hm
    rcases timerSlot_jsDisp_cases s gp hg with
      ⟨_, hr, hval⟩ | ⟨_, hr, hval⟩ | ⟨_, hr, hval⟩ | ⟨_, hr, hval⟩ | ⟨hout, _⟩
    · have hr0 : 0 ≤ s.timerSlot.ui.jsDisp.range := by rw [hr]; split_ifs <;> assumption
      rw [hval]
      constructor <;> nlinarith
    · have hr0 : 0 ≤ s.timerSlot.ui.jsDisp.range := by rw [hr]; norm_num
      rw [hval]
      constructor <;> nlinarith
    · have hr0 : 0 ≤ s.timerSlot.ui.jsDisp.range := by rw [hr]; split_ifs <;> assumption
      rw [hval]
      constructor <;> nlinarith
    · have hr0 : 0 ≤ s.timerSlot.ui.jsDisp.range := by rw [hr]; norm_num
      rw [hval]
      constructor <;> nlinarith
    · omega
  · intro hm
    rcases timerSlot_jsDisp_cases s gp hg with
      ⟨_, hr, hval⟩ | ⟨h2, _⟩ | ⟨h3, _⟩ | ⟨h4, _⟩ | ⟨hout, _⟩
    · rw [hval, hr]
      split_ifs with hp
      · constructor <;> nlinarith
      · constructor <;> nlinarith
    all_goals omega
  · intro hm
    rcases timerSlot_jsDisp_cases s gp hg with
      ⟨h01, _⟩ | ⟨h2, _⟩ | ⟨_, hr, hval⟩ | ⟨h4, _⟩ | ⟨hout, _⟩
    · omega
    · omega
    · rw [hval, hr]
      split_ifs with hp
      · constructor <;> nlinarith
      · constructor <;> nlinarith
    all_goals omega
  · intro hb
    have h0 : 0 ≤ tickInput s.ui gp := by
      rw [← hlo0 hb]
      exact hi1
    rcases timerSlot_jsDisp_cases s gp hg with
      ⟨_, hr, hval⟩ | ⟨_, hr, hval⟩ | ⟨_, hr, hval⟩ | ⟨_, hr, hval⟩ | ⟨_, _, _, hval⟩
    · have hr0 : 0 ≤ s.timerSlot.ui.jsDisp.range := by rw [hr]; split_ifs <;> assumption
      rw [hval]
      exact mul_nonneg h0 hr0
    · have hr0 : 0 ≤ s.timerSlot.ui.jsDisp.range := by rw [hr]; norm_num
      rw [hval]
      exact mul_nonneg h0 hr0
    · have hr0 : 0 ≤ s.timerSlot.ui.jsDisp.range := by rw [hr]; split_ifs <;> assumption
      rw [hval]
      exact mul_nonneg h0 hr0
    · have hr0 : 0 ≤ s.timerSlot.ui.jsDisp.range := by rw [hr]; norm_num
      rw [hval]
      exact mul_nonneg h0 hr0
    · rw [hval]
      exact h0

/-- C8, amended, applied to the calibration and reading of scenario 2: the remap of -400 over
-1000..1000 with `lo = -1` lies in [-1, 1], and the output of the tick lies between
`-|currentMin|` and `|currentMax|`. -/
theorem map_and_output_bounded_witness :
    ((-1 : ℚ) ≤ Utility.map (-400) (-1000) 1000 (-1) 1 ∧
      Utility.map (-400) (-1000) 1000 (-1) 1 ≤ 1) ∧
    (-|scenario2Page.ui.jsCurrentMinBox| ≤ scenario2Page.timerSlot.ui.jsDisp.val ∧
      scenario2Page.timerSlot.ui.jsDisp.val ≤ |scenario2Page.ui.jsCurrentMaxBox|) :=
  ⟨(map_and_output_bounded.1 (-1000) 1000 (-1) (-400) (by norm_num) (Or.inl rfl)
      (by norm_num) (by norm_num)).2,
   (map_and_output_bounded.2 scenario2Page (padReading (-2/5) true) rfl
      (by norm_num [scenario2Page, armedPage, scenarioUi])
      (by norm_num [tickAx, scenario2Page, armedPage, scenarioUi, padReading])
      (by norm_num [tickAx, scenario2Page, armedPage, scenarioUi, padReading])).2.2.1
      (Or.inl rfl)⟩

end VescTool
